import Mathlib

/-!
Verification of the cross-validated decoding-curve evaluation pipeline of
`mindaffectBCI/decoder/analyse_datasets.py` (functions `analyse_dataset`,
`analyse_train_test`, `dataset_GridSearchCV`,
`concurrent_datasets_GridSearchCV`) against its specification.

The Python code is shallowly embedded: tensors become nested lists indexed
(trial, sample, output); numpy boolean-mask indexing and fancy indexing are
embedded as explicit list operations; Python exceptions become `Except`
results or dedicated outcome constructors; floats become rationals with
explicit truncation where the source calls `int(...)`.
-/

deriving instance DecidableEq for Except

namespace AnalyseDatasets

/-- Python `int(q)` on a rational: truncation toward zero. -/
def pyTrunc (q : ℚ) : ℤ := if 0 ≤ q then ⌊q⌋ else ⌈q⌉

/-- Python `range(start, stop, step)` for a positive `step`:
`[start, start+step, ...)` strictly below `stop`. -/
def pyRange (start stop step : ℕ) : List ℕ :=
  (List.range ((stop - start + step - 1) / step)).map fun k => start + k * step

/-!
### Growing-window fold generation (`analyse_train_test`, lines 248-255)

```python
if isinstance(splits,int):
    splitsize=splits
    maxsize = X.shape[0]
    splits=[]
    for tsti in range(splitsize, maxsize, splitsize):
        # N.B. triple nest, so list, of lists of train/test pairs
        splits.append( ( (slice(tsti),slice(tsti,None)), ) )
```

A `slice(t)` over the trial axis of `nTrials` trials selects indices
`[0, t)`, i.e. `List.range t`; `slice(t, None)` selects `[t, nTrials)`,
i.e. `List.range' t (nTrials - t)`.  Each appended element is a 1-tuple
holding one (train, test) pair, embedded as a singleton list.
-/
def analyse_train_test_splits (nTrials splitsize : ℕ) : List (List (List ℕ × List ℕ)) :=
  (pyRange splitsize nTrials splitsize).map fun tsti =>
    [(List.range tsti, List.range' tsti (nTrials - tsti))]

/-!
### Boolean-mask splicing (`analyse_dataset`, lines 158-167)

```python
test_ind = np.zeros((X.shape[0],),dtype=bool)
test_ind[test_idx] = True
train_ind = np.logical_not(test_ind)
...
Fy_test = clsfr.predict(X[test_idx,...],Y[test_idx,...])
tmp = list(rawFy.shape); tmp[-3]=X.shape[0]
allFy = np.zeros(tmp,dtype=Fy.dtype)
allFy[...,train_ind,:,:] = rawFy
allFy[...,test_ind,:,:] = Fy_test
```

`testMask n test_idx` is the boolean vector `test_ind`.  numpy assigns the
k-th row of the right-hand side to the k-th `True` (resp. `False`) position
of the mask, which `spliceGo` reproduces: it walks the mask, drawing from
`Fy_test` at `True` positions and from `rawFy` at `False` positions (the
zero fill `z` of `np.zeros` shows through only if a source runs dry, which
in numpy would instead be a shape-mismatch error).
-/

/-- The boolean trial mask `test_ind`: entry `i` is `True` iff `i` appears in
`test_idx`. -/
def testMask (n : ℕ) (test_idx : List ℕ) : List Bool :=
  (List.range n).map fun i => decide (i ∈ test_idx)

/-- Walk the boolean mask, taking the next element of `ts` at `True`
positions and the next element of `raw` at `False` positions; `z` is the
`np.zeros` fill used when a source list is exhausted. -/
def spliceGo {α : Type} (z : α) : List Bool → List α → List α → List α
  | [], _, _ => []
  | true :: bs, raw, t :: ts => t :: spliceGo z bs raw ts
  | true :: bs, raw, [] => z :: spliceGo z bs raw []
  | false :: bs, r :: rs, ts => r :: spliceGo z bs rs ts
  | false :: bs, [], ts => z :: spliceGo z bs [] ts

/-- Elements of `l` at the `True` positions of the mask, in order:
the numpy read `l[mask]`. -/
def maskSelect {α : Type} : List Bool → List α → List α
  | b :: bs, x :: xs => if b then x :: maskSelect bs xs else maskSelect bs xs
  | _, _ => []

/-- Elements of `l` at the `False` positions of the mask, in order:
the numpy read `l[~mask]`. -/
def maskReject {α : Type} : List Bool → List α → List α
  | b :: bs, x :: xs => if b then maskReject bs xs else x :: maskReject bs xs
  | _, _ => []

/-- numpy fancy indexing `X[idx, ...]` over the trial axis: rows in the
order listed by `idx`. -/
def fancyIndex {τ : Type} (X : List τ) (idx : List ℕ) (d : τ) : List τ :=
  idx.map fun i => X.getD i d

/-- Number of `True` entries of a boolean mask. -/
def countTrue : List Bool → ℕ
  | [] => 0
  | true :: bs => countTrue bs + 1
  | false :: bs => countTrue bs

/-- Number of `False` entries of a boolean mask. -/
def countFalse : List Bool → ℕ
  | [] => 0
  | true :: bs => countFalse bs
  | false :: bs => countFalse bs + 1

lemma spliceGo_length {α : Type} (z : α) :
    ∀ (mask : List Bool) (raw ts : List α),
      (spliceGo z mask raw ts).length = mask.length := by
  intro mask
  induction mask with
  | nil => intro raw ts; simp [spliceGo]
  | cons b bs ih =>
    intro raw ts
    cases b with
    | true => cases ts <;> simp [spliceGo, ih]
    | false => cases raw <;> simp [spliceGo, ih]

lemma maskSelect_spliceGo {α : Type} (z : α) :
    ∀ (mask : List Bool) (raw ts : List α),
      countTrue mask = ts.length →
      maskSelect mask (spliceGo z mask raw ts) = ts := by
  intro mask
  induction mask with
  | nil =>
    intro raw ts h
    cases ts with
    | nil => simp [spliceGo, maskSelect]
    | cons t ts' => simp [countTrue] at h
  | cons b bs ih =>
    intro raw ts h
    cases b with
    | true =>
      cases ts with
      | nil => simp [countTrue] at h
      | cons t ts' =>
        simp [countTrue] at h
        simp [spliceGo, maskSelect, ih raw ts' h]
    | false =>
      cases raw with
      | nil =>
        simp [countTrue] at h
        simp [spliceGo, maskSelect, ih [] ts h]
      | cons r rs =>
        simp [countTrue] at h
        simp [spliceGo, maskSelect, ih rs ts h]

lemma maskReject_spliceGo {α : Type} (z : α) :
    ∀ (mask : List Bool) (raw ts : List α),
      countFalse mask = raw.length →
      maskReject mask (spliceGo z mask raw ts) = raw := by
  intro mask
  induction mask with
  | nil =>
    intro raw ts h
    cases raw with
    | nil => simp [spliceGo, maskReject]
    | cons r rs => simp [countFalse] at h
  | cons b bs ih =>
    intro raw ts h
    cases b with
    | true =>
      cases ts with
      | nil =>
        simp [countFalse] at h
        simp [spliceGo, maskReject, ih raw [] h]
      | cons t ts' =>
        simp [countFalse] at h
        simp [spliceGo, maskReject, ih raw ts' h]
    | false =>
      cases raw with
      | nil => simp [countFalse] at h
      | cons r rs =>
        simp [countFalse] at h
        simp [spliceGo, maskReject, ih rs ts h]

lemma countTrue_add_countFalse :
    ∀ mask : List Bool, countTrue mask + countFalse mask = mask.length := by
  intro mask
  induction mask with
  | nil => rfl
  | cons b bs ih => cases b <;> simp [countTrue, countFalse] <;> omega

lemma testMask_length (n : ℕ) (test_idx : List ℕ) :
    (testMask n test_idx).length = n := by
  simp [testMask]

lemma countTrue_map_decide {α : Type} (p : α → Prop) [DecidablePred p] :
    ∀ l : List α, countTrue (l.map fun x => decide (p x)) = (l.filter fun x => decide (p x)).length := by
  intro l
  induction l with
  | nil => rfl
  | cons x xs ih =>
    by_cases hx : p x <;> simp [countTrue, hx, List.filter, ih]

lemma countTrue_testMask (n : ℕ) (test_idx : List ℕ)
    (hnd : test_idx.Nodup) (hlt : ∀ i ∈ test_idx, i < n) :
    countTrue (testMask n test_idx) = test_idx.length := by
  rw [testMask, countTrue_map_decide (fun i => i ∈ test_idx) (List.range n)]
  have hperm : List.Perm ((List.range n).filter fun i => decide (i ∈ test_idx)) test_idx := by
    rw [List.perm_ext_iff_of_nodup (List.Nodup.filter _ (List.nodup_range n)) hnd]
    intro a
    simp only [List.mem_filter, List.mem_range, decide_eq_true_eq]
    exact ⟨fun h => h.2, fun h => ⟨hlt a h, h⟩⟩
  exact hperm.length_eq

lemma countFalse_testMask (n : ℕ) (test_idx : List ℕ)
    (hnd : test_idx.Nodup) (hlt : ∀ i ∈ test_idx, i < n) :
    countFalse (testMask n test_idx) = n - test_idx.length := by
  have h1 := countTrue_add_countFalse (testMask n test_idx)
  rw [testMask_length, countTrue_testMask n test_idx hnd hlt] at h1
  omega

/-!
### Model construction dispatch (`analyse_dataset`, lines 83-104)

The chain of `if`/`elif` on the `model` argument.  Crucially, the module
never binds the bare name `sklearn`: it only has from-imports
(`from sklearn.linear_model ...`, `from sklearn.svm ...`,
`from sklearn.model_selection ...`), so the guard on line 99,
`isinstance(model, sklearn.linear_model) or isinstance(model, sklearn.svm)`,
raises `NameError: name 'sklearn' is not defined` as soon as it is
evaluated.  Every string that falls through the `svc` branch therefore
raises `NameError` before the `model=='linearsklearn'` branch or the final
`else: raise NotImplementedError(...)` can run.
-/

/-- The `model` argument: a pre-built `BaseSequence2Sequence` instance,
`None`, or a string token. -/
inductive ModelSpec : Type
  | prebuilt
  | noneArg
  | token (s : String)
  deriving DecidableEq

/-- The concrete adapter the dispatch chain would construct. -/
inductive Constructed : Type
  | prebuilt
  | multiCCA
  | bwdLinearRegression
  | fwdLinearRegression
  | linearSklearnRidge
  | linearSklearnLR
  | linearSklearnSVR
  | linearSklearnSVC
  /-- the `model=='linearsklearn'` branch — unreachable in the source. -/
  | linearSklearnDefault
  deriving DecidableEq

/-- Result of running the dispatch chain. -/
inductive BuildOutcome : Type
  | ok (c : Constructed)
  /-- `NameError: name 'sklearn' is not defined`, raised when the guard of
  line 99 is evaluated. -/
  | nameError
  /-- `raise NotImplementedError("don't know this model: ...")` of the
  final `else` — unreachable in the source. -/
  | notImplementedError
  deriving DecidableEq

/-- The `if isinstance(model, BaseSequence2Sequence)`/`elif` chain of
`analyse_dataset`. -/
def build_model : ModelSpec → BuildOutcome
  | ModelSpec.prebuilt => BuildOutcome.ok Constructed.prebuilt
  | ModelSpec.noneArg => BuildOutcome.ok Constructed.multiCCA
  | ModelSpec.token s =>
    if s = "cca" then BuildOutcome.ok Constructed.multiCCA
    else if s = "bwd" then BuildOutcome.ok Constructed.bwdLinearRegression
    else if s = "fwd" then BuildOutcome.ok Constructed.fwdLinearRegression
    else if s = "ridge" then BuildOutcome.ok Constructed.linearSklearnRidge
    else if s = "lr" then BuildOutcome.ok Constructed.linearSklearnLR
    else if s = "svr" then BuildOutcome.ok Constructed.linearSklearnSVR
    else if s = "svc" then BuildOutcome.ok Constructed.linearSklearnSVC
    else BuildOutcome.nameError

/-!
### Sample-rate and window derivation (`analyse_dataset`, lines 70-76)

```python
if coords is not None:
    fs = coords[1]['fs']
    ...
else:
    ...
tau = int(tau_ms*fs/1000)
offset=int(offset_ms*fs/1000)
```

When `coords is None` and no explicit `fs` was passed, `fs` is `None` and
`tau_ms*fs` raises `TypeError` (the failure the spec names
`MissingSampleRateError`); the embedding returns `Except.error ()` there.
-/

/-- The axis-1 coordinate record, carrying the sample rate `coords[1]['fs']`. -/
structure CoordsAx where
  fs : ℚ
  deriving DecidableEq

/-- `fs = coords[1]['fs']` when coords is given, else the explicit `fs`
argument (possibly `None`). -/
def derive_fs : Option CoordsAx → Option ℚ → Option ℚ
  | some c, _ => some c.fs
  | none, fs => fs

/-- Derivation of `tau` and `offset` in samples from the millisecond
arguments; fails (Python `TypeError` on `tau_ms*None`) when no sample rate
is available. -/
def derive_tau_offset (coords : Option CoordsAx) (fs : Option ℚ)
    (tau_ms offset_ms : ℚ) : Except Unit (ℤ × ℤ) :=
  match derive_fs coords fs with
  | none => Except.error ()
  | some f => Except.ok (pyTrunc (tau_ms * f / 1000), pyTrunc (offset_ms * f / 1000))

/-!
### Virtual-output augmentation (`analyse_dataset`, lines 106-110)

```python
if n_virt_out is not None:
    oY = Y.copy()
    Y_virt = block_permute(Y, n_virt_out, axis=-1)
    Y = np.concatenate((Y, Y_virt), -1) # (..., nY)
```

`np.concatenate` along the last (output) axis is a per-trial, per-sample
list append, embedded in `augment_virt` directly from the source.
-/

/-- Modelled from the spec: `block_permute` (from
`mindaffectBCI.decoder.utils`, not part of the analysed sources) produces
`n_virt_out` "virtual" output channels per trial and sample whose values
are permuted copies of the existing channels of `Y`.  Only its shape
contract — `n_virt_out` channels along the chosen axis, values drawn from
`Y` — is relied upon. -/
def block_permute {α : Type} (z : α) (Y : List (List (List α))) (n_virt_out : ℕ) :
    List (List (List α)) :=
  Y.map fun yt => yt.map fun ys =>
    (List.range n_virt_out).map fun j => ys.getD (j % ys.length) z

/-- `Y = np.concatenate((Y, block_permute(Y, n_virt_out, axis=-1)), -1)`. -/
def augment_virt {α : Type} (z : α) (Y : List (List (List α))) (n_virt_out : ℕ) :
    List (List (List α)) :=
  List.zipWith (fun yt vt => List.zipWith (fun ys vs => ys ++ vs) yt vt)
    Y (block_permute z Y n_virt_out)

/-!
### Hyper-parameter grid search then final `cv_fit`
(`analyse_dataset`, lines 125-145)

```python
if tuned_parameters is not None:
    cv_clsfr = GridSearchCV(clsfr, tuned_parameters)
    cv_clsfr.fit(X_train, Y_train)
    ...
    clsfr.set_params(**cv_clsfr.best_params_)
...
res = clsfr.cv_fit(X_train, Y_train, cv=cv, retrain_on_all=retrain_on_all)
```
-/

/-- The model adapter, reduced to its configurable parameter record. -/
structure Adapter (P : Type) where
  params : P

/-- `clsfr.set_params(**p)`. -/
def set_params {P : Type} (_ : Adapter P) (p : P) : Adapter P :=
  { params := p }

/-- Modelled from the spec: sklearn `GridSearchCV.best_params_` (an
external collaborator, not part of the analysed sources) — the grid point
with the maximal mean cross-validated score, ties broken by enumeration
order (the first enumerated maximiser wins). -/
def bestParams {P : Type} (meanScore : P → ℚ) : List P → Option P
  | [] => none
  | p :: ps =>
    match bestParams meanScore ps with
    | none => some p
    | some q => if meanScore p < meanScore q then some q else some p

/-- The `cv=True` fitting phase of `analyse_dataset`: when a
`tuned_parameters` grid is supplied, configure the adapter with the grid
search's best parameters via `set_params`, then run the final `cv_fit`
with the adapter's (possibly updated) configuration. -/
def fit_phase {P R : Type} (clsfr : Adapter P) (tuned_parameters : Option (List P))
    (meanScore : P → ℚ) (cv_fit : P → R) : Adapter P × R :=
  let clsfr2 : Adapter P :=
    match tuned_parameters with
    | some grid =>
      match bestParams meanScore grid with
      | some bp => set_params clsfr bp
      | none => clsfr
    | none => clsfr
  (clsfr2, cv_fit clsfr2.params)

/-!
### Result assembly of `analyse_dataset` (lines 147-177)

```python
Fy = res['estimator']
...
rawFy = res['rawestimator'] if 'rawestimator' in res else Fy
if test_idx is not None:
    Fy_test = clsfr.predict(X[test_idx,...],Y[test_idx,...])
    tmp = list(rawFy.shape); tmp[-3]=X.shape[0]
    allFy = np.zeros(tmp,dtype=Fy.dtype)
    allFy[...,train_ind,:,:] = rawFy
    allFy[...,test_ind,:,:] = Fy_test
    rawFy = allFy
    res['rawestimator']=rawFy
score=clsfr.audc_score(rawFy)
(dc) = decodingCurveSupervised(rawFy, ...)
return score, dc, Fy, clsfr, res
```

Trials are per-trial score entries of type `α`; `predictT` is the
per-trial action of `clsfr.predict`; `audc`/`dcf` abstract
`clsfr.audc_score` and `decodingCurveSupervised` (both consume the same
spliced tensor `rawFy`).
-/

/-- The dict returned by `cv_fit`, also reused as the returned `res` dict:
an `'estimator'` entry and an optional `'rawestimator'` entry. -/
structure CvRes (α : Type) where
  estimator : List α
  rawestimator : Option (List α)
  deriving DecidableEq

/-- The raw score tensor `rawFy` handed to `audc_score` and
`decodingCurveSupervised`: `res['rawestimator']` if present else the
estimator, spliced over all `n` trials when `test_idx` is supplied. -/
def rawScoresForScoring {α τ : Type} (n : ℕ) (test_idx : Option (List ℕ))
    (res : CvRes α) (X : List τ) (predictT : τ → α) (dX : τ) (z : α) : List α :=
  let Fy := res.estimator
  let rawFy := res.rawestimator.getD Fy
  match test_idx with
  | none => rawFy
  | some tidx =>
    spliceGo z (testMask n tidx) rawFy ((fancyIndex X tidx dX).map predictT)

/-- The tail of `analyse_dataset`: compute the spliced raw tensor, store it
back into `res['rawestimator']`, and return the 5-tuple
`(score, dc, Fy, clsfr, res)`; the classifier is abstracted to `Unit`. -/
def analyse_tail {α τ δ : Type} (n : ℕ) (test_idx : Option (List ℕ))
    (res : CvRes α) (X : List τ) (predictT : τ → α) (dX : τ) (z : α)
    (audc : List α → ℚ) (dcf : List α → δ) :
    ℚ × δ × List α × Unit × CvRes α :=
  let rawFy := rawScoresForScoring n test_idx res X predictT dX z
  let res2 : CvRes α :=
    match test_idx with
    | none => res
    | some _ => { res with rawestimator := some rawFy }
  (audc rawFy, dcf rawFy, res.estimator, (), res2)

/-!
### Per-configuration grid loop of `dataset_GridSearchCV` (lines 919-975)

```python
for ci,fit_config in enumerate(ParameterGrid(tuned_parameters)):
    ...
    if ci==0 or not loader_args_f == loader_args :
        try:
            oX, oY, ocoords = loader(filename, **loader_args)
        except:
            print("Problem loading file: {}".format(filename))
            continue
    ...
    if 1: #try:
        ...
        score, decoding_curve, _, _, _ = analyse_dataset(X, Y, coords, model_f, **clsfr_args_f, **kwargs_f)
    #except:
    #    continue
    ...
```

The `try`/`except` around the per-configuration *analysis* is commented
out (`if 1: #try:`), so an exception raised by `analyse_dataset` for one
configuration propagates and aborts the whole loop; only a *loading*
failure is caught (and that configuration skipped via `continue`).  The
loop is embedded with the per-configuration load outcome precomputed
(`Except Unit D`) and the analysis as a fallible function `D → Except E S`;
a skipped configuration leaves `none` in the result list (its `res[ci]`
slot is never filled). -/
def gridLoop {D E S : Type} : List (Except Unit D) → (D → Except E S) →
    Except E (List (Option S))
  | [], _ => Except.ok []
  | Except.error _ :: cs, analyse =>
    (gridLoop cs analyse).map fun rs => none :: rs
  | Except.ok d :: cs, analyse =>
    match analyse d with
    | Except.error e => Except.error e
    | Except.ok s => (gridLoop cs analyse).map fun rs => some s :: rs

/-!
### Result collection of `concurrent_datasets_GridSearchCV` (lines 1044-1058)

```python
res=[]
for future in concurrent.futures.as_completed(futures):
    res_fi = future.result()
    # merge into the set of all results
    if res :
        for ci,res_ci in enumerate(res_fi):
            res[ci]['filenames'].extend(res_ci['filenames'])
            res[ci]['scores'].extend(res_ci['scores'])
            res[ci]['decoding_curves'].extend(res_ci['decoding_curves'])
    else:
        res = res_fi
```

`future.result()` re-raises a failed worker's exception in the parent with
no surrounding `try`/`except`, so it aborts the entire collection loop.
Completion order is abstracted as the order of the futures list; each
future's outcome is an `Except`. -/

/-- One grid configuration's accumulated result record. -/
structure ConfigRes (φ σ δ : Type) where
  filenames : List φ
  scores : List σ
  decoding_curves : List δ
  deriving DecidableEq

/-- The per-future merge: extend each configuration's lists by
concatenation (when `res` is empty, adopt the worker's list wholesale). -/
def mergeRes {φ σ δ : Type} (res res_fi : List (ConfigRes φ σ δ)) :
    List (ConfigRes φ σ δ) :=
  if res.isEmpty then res_fi
  else
    List.zipWith (fun r rc =>
      { filenames := r.filenames ++ rc.filenames
        scores := r.scores ++ rc.scores
        decoding_curves := r.decoding_curves ++ rc.decoding_curves })
      res res_fi

/-- The collection loop: `res_fi = future.result()` propagates a worker's
exception, otherwise the worker's records are merged into `res`. -/
def collectGo {φ σ δ E : Type} :
    List (Except E (List (ConfigRes φ σ δ))) → List (ConfigRes φ σ δ) →
    Except E (List (ConfigRes φ σ δ))
  | [], res => Except.ok res
  | Except.error e :: _, _ => Except.error e
  | Except.ok rfi :: fs, res => collectGo fs (mergeRes res rfi)

/-- Collect all workers' results starting from `res=[]`. -/
def collect_results {φ σ δ E : Type}
    (futures : List (Except E (List (ConfigRes φ σ δ)))) :
    Except E (List (ConfigRes φ σ δ)) :=
  collectGo futures []

/-- `Except.isOk` as a plain boolean discriminator. -/
def isOkE {E A : Type} : Except E A → Bool
  | Except.ok _ => true
  | Except.error _ => false

/-!
### Loader-argument handling of `dataset_GridSearchCV` (lines 919-953)

```python
loader_args_f = loader_args.copy()
...
for k,v in fit_config.items():
    ...
    elif k.startswith("loader_args"):
        k = k[len("loader_args")+1:]
        loader_args_f[k]=v
    ...
if ci==0 or not loader_args_f == loader_args :
    try:
        oX, oY, ocoords = loader(filename, **loader_args)
    ...
```

The reload is always performed with the function's *base* `loader_args`,
never with the configuration-overridden `loader_args_f`.  Dicts are
embedded as association lists over `String` keys.
-/

/-- Python dict assignment `d[k]=v`: replace an existing binding in place,
else append. -/
def dictSet {V : Type} (d : List (String × V)) (k : String) (v : V) :
    List (String × V) :=
  if d.any fun kv => kv.1 = k then
    d.map fun kv => if kv.1 = k then (k, v) else kv
  else d ++ [(k, v)]

/-- `loader_args_f`: the base `loader_args` overridden by every
`fit_config` entry whose key starts with `"loader_args"` (key truncated
past the separating underscore). -/
def loader_args_override {V : Type} [DecidableEq V]
    (loader_args fit_config : List (String × V)) : List (String × V) :=
  fit_config.foldl
    (fun acc kv =>
      if kv.1.startsWith "loader_args" then
        dictSet acc (kv.1.drop ("loader_args".length + 1)) kv.2
      else acc)
    loader_args

/-- The per-configuration loaded data of the grid loop: reload (always with
the base `loader_args`) when `ci==0` or the overridden `loader_args_f`
differs from the base, otherwise keep the previously loaded data. -/
def dataForConfigsGo {V D : Type} [DecidableEq V]
    (loader : List (String × V) → D) (loader_args : List (String × V)) :
    List (List (String × V)) → Option D → List D
  | [], _ => []
  | cfg :: cfgs, prev =>
    let d : D :=
      match prev with
      | none => loader loader_args
      | some dp =>
        if loader_args_override loader_args cfg = loader_args then dp
        else loader loader_args
    d :: dataForConfigsGo loader loader_args cfgs (some d)

/-- Data handed to the analysis for each grid configuration, in grid
enumeration order. -/
def dataForConfigs {V D : Type} [DecidableEq V]
    (loader : List (String × V) → D) (loader_args : List (String × V))
    (cfgs : List (List (String × V))) : List D :=
  dataForConfigsGo loader loader_args cfgs none

/-! ## Further helper lemmas -/

lemma getD_map_of_lt {A B : Type} (f : A → B) (d : B) (d2 : A) :
    ∀ (l : List A) (i : ℕ), i < l.length → (l.map f).getD i d = f (l.getD i d2)
  | _ :: _, 0, _ => rfl
  | _ :: xs, i + 1, h => getD_map_of_lt f d d2 xs i (by simpa using h)

lemma getD_replicate {A : Type} (x : A) :
    ∀ (k i : ℕ), (List.replicate k x).getD i x = x
  | 0, _ => by simp
  | _ + 1, 0 => rfl
  | k + 1, i + 1 => getD_replicate x k i

lemma zipWith_self_map {A B C : Type} (h : A → B → C) (g : A → B) :
    ∀ l : List A, List.zipWith h l (l.map g) = l.map fun x => h x (g x) := by
  intro l
  induction l with
  | nil => rfl
  | cons x xs ih => simp [ih]

lemma bestParams_cons_none {P : Type} {meanScore : P → ℚ} {ps : List P} (p : P)
    (h : bestParams meanScore ps = none) :
    bestParams meanScore (p :: ps) = some p := by
  rw [bestParams, h]

lemma bestParams_cons_some {P : Type} {meanScore : P → ℚ} {ps : List P} {q : P} (p : P)
    (h : bestParams meanScore ps = some q) :
    bestParams meanScore (p :: ps) =
      if meanScore p < meanScore q then some q else some p := by
  rw [bestParams, h]

lemma bestParams_isSome {P : Type} (meanScore : P → ℚ) (l : List P) (hne : l ≠ []) :
    ∃ bp, bestParams meanScore l = some bp := by
  cases l with
  | nil => exact absurd rfl hne
  | cons p ps =>
    cases hps : bestParams meanScore ps with
    | none => exact ⟨p, bestParams_cons_none p hps⟩
    | some q =>
      rw [bestParams_cons_some p hps]
      by_cases hlt : meanScore p < meanScore q
      · exact ⟨q, if_pos hlt⟩
      · exact ⟨p, if_neg hlt⟩

lemma bestParams_mem {P : Type} (meanScore : P → ℚ) :
    ∀ (l : List P) (bp : P), bestParams meanScore l = some bp → bp ∈ l := by
  intro l
  induction l with
  | nil => intro bp h; simp [bestParams] at h
  | cons p ps ih =>
    intro bp h
    cases hps : bestParams meanScore ps with
    | none =>
      rw [bestParams_cons_none p hps] at h
      injection h with h2
      simp [h2]
    | some q =>
      rw [bestParams_cons_some p hps] at h
      split_ifs at h with hlt
      · injection h with h2
        exact List.mem_cons_of_mem p (h2 ▸ ih q hps)
      · injection h with h2
        simp [h2]

lemma bestParams_le {P : Type} (meanScore : P → ℚ) :
    ∀ (l : List P) (bp : P), bestParams meanScore l = some bp →
      ∀ p ∈ l, meanScore p ≤ meanScore bp := by
  intro l
  induction l with
  | nil => intro bp h; simp [bestParams] at h
  | cons p ps ih =>
    intro bp h x hx
    cases hps : bestParams meanScore ps with
    | none =>
      rw [bestParams_cons_none p hps] at h
      injection h with h2
      cases ps with
      | nil =>
        rcases List.mem_singleton.mp hx with rfl
        exact le_of_eq (by rw [h2])
      | cons r rs =>
        rcases bestParams_isSome meanScore (r :: rs) (by simp) with ⟨m, hm⟩
        rw [hm] at hps
        exact absurd hps (by simp)
    | some m =>
      rw [bestParams_cons_some p hps] at h
      split_ifs at h with hlt
      · injection h with h2
        subst h2
        rcases List.mem_cons.mp hx with rfl | hx2
        · exact le_of_lt hlt
        · exact ih _ hps x hx2
      · injection h with h2
        subst h2
        rcases List.mem_cons.mp hx with rfl | hx2
        · exact le_refl _
        · exact le_trans (ih m hps x hx2) (le_of_not_lt hlt)

/-! ## Claims -/

/-- Claim C2: for every `nTrials` and every integer `step` with
`0 < step < nTrials`, growing-window fold generation produces exactly the
folds whose fold `k` trains on trials `[0, k*step)` and tests on trials
`[k*step, nTrials)`, for `k*step` ranging from `step` to `nTrials`
exclusive (the map below enumerates `k-1 = 0, 1, ...`); in every generated
fold the train and test index sets are disjoint, and across the generated
folds the train set sizes strictly increase. -/
theorem C2_growing_window_folds (nTrials step : ℕ) (hs : 0 < step) (hn : step < nTrials) :
    analyse_train_test_splits nTrials step =
      (List.range ((nTrials - 1) / step)).map (fun k =>
        [(List.range ((k + 1) * step),
          List.range' ((k + 1) * step) (nTrials - (k + 1) * step))]) ∧
    (∀ fold ∈ analyse_train_test_splits nTrials step, ∀ pr ∈ fold,
      ∀ x ∈ pr.1, x ∉ pr.2) ∧
    (∀ i j : ℕ, ∀ hj : j < (analyse_train_test_splits nTrials step).length,
      ∀ hij : i < j,
      (((analyse_train_test_splits nTrials step).get ⟨i, hij.trans hj⟩).headD
          ([], [])).1.length <
      (((analyse_train_test_splits nTrials step).get ⟨j, hj⟩).headD
          ([], [])).1.length) := by
  have hcnt : nTrials - step + step - 1 = nTrials - 1 := by omega
  have harg : ∀ k : ℕ, step + k * step = (k + 1) * step := by intro k; ring
  have heq : analyse_train_test_splits nTrials step =
      (List.range ((nTrials - 1) / step)).map (fun k =>
        [(List.range ((k + 1) * step),
          List.range' ((k + 1) * step) (nTrials - (k + 1) * step))]) := by
    rw [analyse_train_test_splits, pyRange, hcnt, List.map_map]
    refine List.map_congr_left fun k _ => ?_
    simp only [Function.comp_apply, harg]
  refine ⟨heq, ?_, ?_⟩
  · intro fold hfold pr hpr x hx1 hx2
    rw [analyse_train_test_splits] at hfold
    rcases List.mem_map.mp hfold with ⟨tsti, _, rfl⟩
    rcases List.mem_singleton.mp hpr with rfl
    have h1 : x < tsti := List.mem_range.mp hx1
    have h2 : tsti ≤ x := (List.mem_range'_1.mp hx2).1
    omega
  · intro i j hj hij
    have hj2 : j < (List.range ((nTrials - 1) / step)).length := by
      rw [heq] at hj; simpa using hj
    have hi2 : i < (List.range ((nTrials - 1) / step)).length := lt_trans hij hj2
    have hglem : ∀ (k : ℕ) (hk : k < (analyse_train_test_splits nTrials step).length),
        (((analyse_train_test_splits nTrials step).get ⟨k, hk⟩).headD ([], [])).1.length =
          (k + 1) * step := by
      intro k hk
      have hk2 : k < (List.range ((nTrials - 1) / step)).length := by
        rw [heq] at hk; simpa using hk
      have : (analyse_train_test_splits nTrials step).get ⟨k, hk⟩ =
          [(List.range ((k + 1) * step),
            List.range' ((k + 1) * step) (nTrials - (k + 1) * step))] := by
        simp only [List.get_eq_getElem]
        conv in analyse_train_test_splits nTrials step => rw [heq]
        rw [List.getElem_map]
        simp
      rw [this]
      simp
    rw [hglem i (hij.trans hj), hglem j hj]
    exact (Nat.mul_lt_mul_right hs).mpr (by omega)

/-- Claim C2 witness at `nTrials = 5`, `step = 2`. -/
theorem C2_growing_window_folds_witness :
    (0 < 2 ∧ 2 < 5) ∧
    (analyse_train_test_splits 5 2 =
      (List.range ((5 - 1) / 2)).map (fun k =>
        [(List.range ((k + 1) * 2),
          List.range' ((k + 1) * 2) (5 - (k + 1) * 2))]) ∧
    (∀ fold ∈ analyse_train_test_splits 5 2, ∀ pr ∈ fold,
      ∀ x ∈ pr.1, x ∉ pr.2) ∧
    (∀ i j : ℕ, ∀ hj : j < (analyse_train_test_splits 5 2).length,
      ∀ hij : i < j,
      (((analyse_train_test_splits 5 2).get ⟨i, hij.trans hj⟩).headD
          ([], [])).1.length <
      (((analyse_train_test_splits 5 2).get ⟨j, hj⟩).headD
          ([], [])).1.length)) :=
  ⟨⟨by decide, by decide⟩, C2_growing_window_folds 5 2 (by decide) (by decide)⟩

/-- Claim C1: for every call to `analyse_dataset` with a non-`None`
`test_idx`, the raw score tensor used for scoring and the decoding curve
has its trial axis equal to the total number of trials, holds the
cross-validated scores at every training-trial position, and holds the
predictions of the trained adapter on the held-out trials at every
test-trial position (numpy boolean-mask assignment places the prediction
rows at the `True` positions of `test_ind` in order). -/
theorem C1_test_idx_splice {α τ : Type} (n : ℕ) (tidx : List ℕ) (res : CvRes α)
    (X : List τ) (predictT : τ → α) (dX : τ) (z : α)
    (audc : List α → ℚ) (dcf : List α → List ℚ)
    (hnd : tidx.Nodup) (hlt : ∀ i ∈ tidx, i < n)
    (hraw : (res.rawestimator.getD res.estimator).length = n - tidx.length) :
    (rawScoresForScoring n (some tidx) res X predictT dX z).length = n ∧
    maskReject (testMask n tidx) (rawScoresForScoring n (some tidx) res X predictT dX z) =
      res.rawestimator.getD res.estimator ∧
    maskSelect (testMask n tidx) (rawScoresForScoring n (some tidx) res X predictT dX z) =
      (fancyIndex X tidx dX).map predictT ∧
    (analyse_tail n (some tidx) res X predictT dX z audc dcf).1 =
      audc (rawScoresForScoring n (some tidx) res X predictT dX z) ∧
    (analyse_tail n (some tidx) res X predictT dX z audc dcf).2.1 =
      dcf (rawScoresForScoring n (some tidx) res X predictT dX z) := by
  have hdef : rawScoresForScoring n (some tidx) res X predictT dX z =
      spliceGo z (testMask n tidx) (res.rawestimator.getD res.estimator)
        ((fancyIndex X tidx dX).map predictT) := rfl
  refine ⟨?_, ?_, ?_, rfl, rfl⟩
  · rw [hdef, spliceGo_length, testMask_length]
  · rw [hdef]
    apply maskReject_spliceGo
    rw [countFalse_testMask n tidx hnd hlt, hraw]
  · rw [hdef]
    apply maskSelect_spliceGo
    rw [countTrue_testMask n tidx hnd hlt]
    simp [fancyIndex]

/-- Claim C1 witness: 4 trials, `test_idx = [1, 3]`, cross-validated scores
`[7, 8]` on the train trials `{0, 2}`, per-trial prediction `x + 100` on
`X = [10, 11, 12, 13]`. -/
theorem C1_test_idx_splice_witness :
    ([1, 3] : List ℕ).Nodup ∧ (∀ i ∈ ([1, 3] : List ℕ), i < 4) ∧
    (((CvRes.mk [7, 8] none : CvRes ℤ)).rawestimator.getD
      ((CvRes.mk [7, 8] none : CvRes ℤ)).estimator).length = 4 - ([1, 3] : List ℕ).length ∧
    ((rawScoresForScoring 4 (some [1, 3]) (CvRes.mk [7, 8] none : CvRes ℤ)
        ([10, 11, 12, 13] : List ℤ) (fun x => x + 100) 0 0).length = 4 ∧
      maskReject (testMask 4 [1, 3])
          (rawScoresForScoring 4 (some [1, 3]) (CvRes.mk [7, 8] none : CvRes ℤ)
            ([10, 11, 12, 13] : List ℤ) (fun x => x + 100) 0 0) =
        ((CvRes.mk [7, 8] none : CvRes ℤ)).rawestimator.getD
          ((CvRes.mk [7, 8] none : CvRes ℤ)).estimator ∧
      maskSelect (testMask 4 [1, 3])
          (rawScoresForScoring 4 (some [1, 3]) (CvRes.mk [7, 8] none : CvRes ℤ)
            ([10, 11, 12, 13] : List ℤ) (fun x => x + 100) 0 0) =
        (fancyIndex ([10, 11, 12, 13] : List ℤ) [1, 3] 0).map (fun x => x + 100) ∧
      (analyse_tail 4 (some [1, 3]) (CvRes.mk [7, 8] none : CvRes ℤ)
          ([10, 11, 12, 13] : List ℤ) (fun x => x + 100) 0 0 (fun _ => 0)
          (fun _ => ([] : List ℚ))).1 =
        (fun _ => (0 : ℚ)) (rawScoresForScoring 4 (some [1, 3]) (CvRes.mk [7, 8] none : CvRes ℤ)
          ([10, 11, 12, 13] : List ℤ) (fun x => x + 100) 0 0) ∧
      (analyse_tail 4 (some [1, 3]) (CvRes.mk [7, 8] none : CvRes ℤ)
          ([10, 11, 12, 13] : List ℤ) (fun x => x + 100) 0 0 (fun _ => 0)
          (fun _ => ([] : List ℚ))).2.1 =
        (fun _ => ([] : List ℚ)) (rawScoresForScoring 4 (some [1, 3])
          (CvRes.mk [7, 8] none : CvRes ℤ) ([10, 11, 12, 13] : List ℤ)
          (fun x => x + 100) 0 0)) :=
  ⟨by decide, by decide, by decide,
    C1_test_idx_splice 4 [1, 3] (CvRes.mk [7, 8] none : CvRes ℤ)
      ([10, 11, 12, 13] : List ℤ) (fun x => x + 100) 0 0 (fun _ => 0)
      (fun _ => ([] : List ℚ)) (by decide) (by decide) (by decide)⟩

/-- Claim C3 (code_bug evaluation): the dispatch chain constructs the
matching concrete adapter for the tokens `cca`, `bwd`, `fwd`, `ridge`,
`lr`, `svr`, `svc` and uses a pre-built instance as-is; but the token
`linearsklearn` and every unrecognized token hit the guard
`isinstance(model, sklearn.linear_model) or isinstance(model, sklearn.svm)`
on line 99 first, which raises `NameError` (the bare name `sklearn` is
never bound in the module), so `linearsklearn` never constructs
`LinearSklearn` and unrecognized tokens never reach the documented
`NotImplementedError` (the error the spec calls `UnknownModelError`). -/
theorem C3_model_dispatch_eval :
    build_model ModelSpec.prebuilt = BuildOutcome.ok Constructed.prebuilt ∧
    build_model ModelSpec.noneArg = BuildOutcome.ok Constructed.multiCCA ∧
    build_model (ModelSpec.token "cca") = BuildOutcome.ok Constructed.multiCCA ∧
    build_model (ModelSpec.token "bwd") = BuildOutcome.ok Constructed.bwdLinearRegression ∧
    build_model (ModelSpec.token "fwd") = BuildOutcome.ok Constructed.fwdLinearRegression ∧
    build_model (ModelSpec.token "ridge") = BuildOutcome.ok Constructed.linearSklearnRidge ∧
    build_model (ModelSpec.token "lr") = BuildOutcome.ok Constructed.linearSklearnLR ∧
    build_model (ModelSpec.token "svr") = BuildOutcome.ok Constructed.linearSklearnSVR ∧
    build_model (ModelSpec.token "svc") = BuildOutcome.ok Constructed.linearSklearnSVC ∧
    build_model (ModelSpec.token "linearsklearn") = BuildOutcome.nameError ∧
    build_model (ModelSpec.token "linearsklearn") ≠
      BuildOutcome.ok Constructed.linearSklearnDefault ∧
    build_model (ModelSpec.token "nosuchmodel") = BuildOutcome.nameError ∧
    build_model (ModelSpec.token "nosuchmodel") ≠ BuildOutcome.notImplementedError := by
  decide

/-- Claim C4: for every call to `analyse_dataset` in which `coords` is
`None` and no explicit sample rate `fs` is given, the call fails (the
`TypeError` raised by `int(tau_ms*None/1000)`, which the spec names
`MissingSampleRateError`); when `coords` or `fs` is available, `tau` and
`offset` in samples are derived from the millisecond arguments and the
sample rate by `int(tau_ms*fs/1000)` / `int(offset_ms*fs/1000)`. -/
theorem C4_sample_rate_derivation (coords : Option CoordsAx) (fs : Option ℚ)
    (tau_ms offset_ms : ℚ) :
    (derive_tau_offset coords fs tau_ms offset_ms = Except.error () ↔
      coords = none ∧ fs = none) ∧
    ∀ f : ℚ, derive_fs coords fs = some f →
      derive_tau_offset coords fs tau_ms offset_ms =
        Except.ok (pyTrunc (tau_ms * f / 1000), pyTrunc (offset_ms * f / 1000)) := by
  cases coords with
  | some c =>
    refine ⟨by simp [derive_tau_offset, derive_fs], ?_⟩
    intro f hf
    simp [derive_fs] at hf
    simp [derive_tau_offset, derive_fs, hf]
  | none =>
    cases fs with
    | none => exact ⟨by simp [derive_tau_offset, derive_fs], by intro f hf; simp [derive_fs] at hf⟩
    | some v =>
      refine ⟨by simp [derive_tau_offset, derive_fs], ?_⟩
      intro f hf
      simp [derive_fs] at hf
      simp [derive_tau_offset, derive_fs, hf]

/-- Claim C4 witness: with `coords` carrying `fs = 100`Hz and
`tau_ms = 300`, `offset_ms = 0`, derivation yields `tau = 30` samples and
`offset = 0`; with neither `coords` nor `fs`, derivation fails. -/
theorem C4_sample_rate_derivation_witness :
    derive_tau_offset (some (CoordsAx.mk 100)) none 300 0 = Except.ok (30, 0) ∧
    derive_tau_offset none none 300 0 = Except.error () := by
  constructor
  · have h := (C4_sample_rate_derivation (some (CoordsAx.mk 100)) none 300 0).2 100 rfl
    rw [h]
    norm_num [pyTrunc]
  · exact (C4_sample_rate_derivation none none 300 0).1.mpr ⟨rfl, rfl⟩

lemma augment_virt_eq_map {α : Type} (z : α) (Y : List (List (List α))) (n : ℕ) :
    augment_virt z Y n = Y.map fun yt => yt.map fun ys =>
      ys ++ (List.range n).map fun j => ys.getD (j % ys.length) z := by
  rw [augment_virt, block_permute, zipWith_self_map]
  refine List.map_congr_left fun yt _ => ?_
  rw [zipWith_self_map]

/-- Claim C5: for every stimulus tensor `Y` of shape
(trials, samples, nY) and every `n_virt_out = n`, virtual-output
augmentation produces an augmented tensor of shape
(trials, samples, nY + n) whose first `nY` columns equal the original `Y`
(`block_permute` itself is modelled from the spec; the concatenation is
the source's `np.concatenate((Y, Y_virt), -1)`). -/
theorem C5_virtual_output_augmentation {α : Type} (z : α) (Y : List (List (List α)))
    (n i j : ℕ) (hi : i < Y.length) (hj : j < (Y.getD i []).length) :
    (augment_virt z Y n).length = Y.length ∧
    ((augment_virt z Y n).getD i []).length = (Y.getD i []).length ∧
    ((augment_virt z Y n).getD i []).getD j [] =
      (Y.getD i []).getD j [] ++ (List.range n).map
        (fun k => ((Y.getD i []).getD j []).getD (k % ((Y.getD i []).getD j []).length) z) ∧
    (((augment_virt z Y n).getD i []).getD j []).length =
      ((Y.getD i []).getD j []).length + n ∧
    (((augment_virt z Y n).getD i []).getD j []).take
      ((Y.getD i []).getD j []).length = (Y.getD i []).getD j [] := by
  rw [augment_virt_eq_map]
  have houter : (Y.map fun yt => yt.map fun ys =>
      ys ++ (List.range n).map fun k => ys.getD (k % ys.length) z).getD i [] =
      (Y.getD i []).map fun ys =>
        ys ++ (List.range n).map fun k => ys.getD (k % ys.length) z :=
    getD_map_of_lt _ _ [] Y i hi
  have hinner : ((Y.getD i []).map fun ys =>
      ys ++ (List.range n).map fun k => ys.getD (k % ys.length) z).getD j [] =
      (Y.getD i []).getD j [] ++ (List.range n).map
        (fun k => ((Y.getD i []).getD j []).getD (k % ((Y.getD i []).getD j []).length) z) :=
    getD_map_of_lt _ _ [] (Y.getD i []) j hj
  refine ⟨by simp, by rw [houter]; simp, by rw [houter, hinner], ?_, ?_⟩
  · rw [houter, hinner]
    simp
  · rw [houter, hinner]
    exact List.take_left _ _

/-- Claim C5 witness (spec Scenario D): `n_virt_out = 2` on `Y` of shape
(1 trial, 2 samples, 1 output) yields shape (1, 2, 3) with column 0
unchanged. -/
theorem C5_virtual_output_augmentation_witness :
    (0 < ([[[5], [6]]] : List (List (List ℤ))).length ∧
      0 < (([[[5], [6]]] : List (List (List ℤ))).getD 0 []).length) ∧
    ((augment_virt (0 : ℤ) [[[5], [6]]] 2).length = ([[[5], [6]]] : List (List (List ℤ))).length ∧
      ((augment_virt (0 : ℤ) [[[5], [6]]] 2).getD 0 []).length =
        (([[[5], [6]]] : List (List (List ℤ))).getD 0 []).length ∧
      ((augment_virt (0 : ℤ) [[[5], [6]]] 2).getD 0 []).getD 0 [] =
        (([[[5], [6]]] : List (List (List ℤ))).getD 0 []).getD 0 [] ++ (List.range 2).map
          (fun k => ((([[[5], [6]]] : List (List (List ℤ))).getD 0 []).getD 0 []).getD
            (k % ((([[[5], [6]]] : List (List (List ℤ))).getD 0 []).getD 0 []).length) 0) ∧
      (((augment_virt (0 : ℤ) [[[5], [6]]] 2).getD 0 []).getD 0 []).length =
        ((([[[5], [6]]] : List (List (List ℤ))).getD 0 []).getD 0 []).length + 2 ∧
      (((augment_virt (0 : ℤ) [[[5], [6]]] 2).getD 0 []).getD 0 []).take
        ((([[[5], [6]]] : List (List (List ℤ))).getD 0 []).getD 0 []).length =
        (([[[5], [6]]] : List (List (List ℤ))).getD 0 []).getD 0 []) :=
  ⟨⟨by decide, by decide⟩,
    C5_virtual_output_augmentation (0 : ℤ) [[[5], [6]]] 2 0 0 (by decide) (by decide)⟩

/-- Claim C6: for every call to `analyse_dataset` with `cv` true and a
non-`None` (non-empty) `tuned_parameters` grid, after the grid search
completes the adapter is configured with the best-scoring parameter
combination via `set_params` before the final `cv_fit` is performed, and
the subsequent `cv_fit` uses that configuration (best = maximal mean CV
score, first enumerated maximiser on ties). -/
theorem C6_grid_search_configures_best {P R : Type} (clsfr : Adapter P) (grid : List P)
    (meanScore : P → ℚ) (cv_fit : P → R) (hne : grid ≠ []) :
    ∃ bp, bestParams meanScore grid = some bp ∧ bp ∈ grid ∧
      (∀ p ∈ grid, meanScore p ≤ meanScore bp) ∧
      (fit_phase clsfr (some grid) meanScore cv_fit).1 = set_params clsfr bp ∧
      (fit_phase clsfr (some grid) meanScore cv_fit).2 = cv_fit bp := by
  rcases bestParams_isSome meanScore grid hne with ⟨bp, hbp⟩
  refine ⟨bp, hbp, bestParams_mem meanScore grid bp hbp,
    bestParams_le meanScore grid bp hbp, ?_, ?_⟩
  · simp [fit_phase, hbp]
  · simp [fit_phase, hbp, set_params]

/-- Claim C6 witness (spec Scenario C): a grid of 3 values for one
parameter, mean scores 3, 7, 5: the middle value is selected, the adapter
is configured with it, and the final `cv_fit` runs at that value. -/
theorem C6_grid_search_configures_best_witness :
    ([10, 20, 30] : List ℕ) ≠ [] ∧
    (∃ bp, bestParams (fun p => if p = 20 then (7 : ℚ) else 3) [10, 20, 30] = some bp ∧
      bp ∈ [10, 20, 30] ∧
      (∀ p ∈ [10, 20, 30],
        (fun p => if p = 20 then (7 : ℚ) else 3) p ≤
          (fun p => if p = 20 then (7 : ℚ) else 3) bp) ∧
      (fit_phase (Adapter.mk 10) (some [10, 20, 30])
          (fun p => if p = 20 then (7 : ℚ) else 3) (fun p => p)).1 =
        set_params (Adapter.mk 10) bp ∧
      (fit_phase (Adapter.mk 10) (some [10, 20, 30])
          (fun p => if p = 20 then (7 : ℚ) else 3) (fun p => p)).2 =
        (fun p => p) bp) :=
  ⟨by decide,
    C6_grid_search_configures_best (Adapter.mk 10) [10, 20, 30]
      (fun p => if p = 20 then (7 : ℚ) else 3) (fun p => p) (by decide)⟩

/-- Claim C7 counterexample: with three grid configurations all loading
fine and the analysis of the second one failing, the per-configuration
loop of `dataset_GridSearchCV` propagates the failure (`if 1: #try:` — the
`except: continue` is commented out) instead of skipping the configuration
and continuing: the result is the raised error, not the skip-and-continue
result list the claim requires. -/
theorem C7_grid_point_failure_counterexample :
    gridLoop [Except.ok 0, Except.ok 1, Except.ok 2]
      (fun d : ℕ => if d = 1 then Except.error () else Except.ok d) =
      Except.error () ∧
    gridLoop [Except.ok 0, Except.ok 1, Except.ok 2]
      (fun d : ℕ => if d = 1 then Except.error () else Except.ok d) ≠
      Except.ok [some 0, none, some 2] := by
  decide

/-- Claim C7 (amended): a failure while *loading* the dataset for a grid
configuration is caught and that configuration is skipped, processing
continuing with the remaining configurations; a failure (raised exception)
while *analyzing* a grid configuration is not caught and propagates,
aborting the processing of the remaining configurations. -/
theorem C7_grid_point_failure_amended {D E S : Type} (cs : List (Except Unit D))
    (analyse : D → Except E S) (d : D) (e : E)
    (hfail : analyse d = Except.error e) :
    gridLoop (Except.error () :: cs) analyse =
      (gridLoop cs analyse).map (fun rs => none :: rs) ∧
    gridLoop (Except.ok d :: cs) analyse = Except.error e := by
  constructor
  · rfl
  · rw [gridLoop]
    rw [hfail]

/-- Claim C7 amended witness: load failure at the head is skipped; an
analysis failure at the head aborts. -/
theorem C7_grid_point_failure_amended_witness :
    (fun d : ℕ => if d = 1 then Except.error () else Except.ok d) 1 =
      (Except.error () : Except Unit ℕ) ∧
    (gridLoop (Except.error () :: [Except.ok 5])
        (fun d : ℕ => if d = 1 then Except.error () else Except.ok d) =
      (gridLoop [Except.ok 5]
        (fun d : ℕ => if d = 1 then Except.error () else Except.ok d)).map
          (fun rs => none :: rs) ∧
    gridLoop (Except.ok 1 :: [Except.ok 5])
        (fun d : ℕ => if d = 1 then Except.error () else Except.ok d) =
      Except.error ()) :=
  ⟨by decide,
    C7_grid_point_failure_amended [Except.ok 5]
      (fun d : ℕ => if d = 1 then Except.error () else Except.ok d) 1 () (by decide)⟩

/-- Claim C8 counterexample: three workers, the second raising; the
collection loop of `concurrent_datasets_GridSearchCV` calls
`future.result()` with no surrounding `try`/`except`, so the exception
propagates and the whole collection aborts — the third worker's
contribution is lost too, instead of only the failing worker's, and no
merged result list is produced. -/
theorem C8_worker_failure_counterexample :
    collect_results
        [Except.ok [ConfigRes.mk [1] [10] [100]],
         Except.error (),
         Except.ok [ConfigRes.mk [2] [20] [200]]] =
      (Except.error () : Except Unit (List (ConfigRes ℕ ℕ ℕ))) ∧
    collect_results
        [Except.ok [ConfigRes.mk [1] [10] [100]],
         Except.error (),
         Except.ok [ConfigRes.mk [2] [20] [200]]] ≠
      (Except.ok [ConfigRes.mk [1, 2] [10, 20] [100, 200]] :
        Except Unit (List (ConfigRes ℕ ℕ ℕ))) := by
  decide

/-- Claim C8 (amended): when one worker's per-file analysis raises, the
exception re-raised by `future.result()` propagates out of the collection
loop and the entire result collection aborts: the contributions of every
worker collected after the failing one (and the merge built so far) are
lost, not only the failing worker's.  When no worker fails, the workers'
per-configuration lists are merged by concatenation in collection order. -/
lemma collectGo_error_propagates {φ σ δ E : Type}
    (fs2 : List (Except E (List (ConfigRes φ σ δ)))) (e : E) :
    ∀ (fs1 : List (Except E (List (ConfigRes φ σ δ))))
      (res : List (ConfigRes φ σ δ)),
      (∀ f ∈ fs1, isOkE f = true) →
      collectGo (fs1 ++ Except.error e :: fs2) res = Except.error e := by
  intro fs1
  induction fs1 with
  | nil => intro res _; rfl
  | cons f fs ih =>
    intro res h
    cases f with
    | error e2 => exact absurd (h _ (List.mem_cons_self _ _)) (by simp [isOkE])
    | ok rfi =>
      rw [List.cons_append]
      show collectGo (fs ++ Except.error e :: fs2) (mergeRes res rfi) = Except.error e
      exact ih (mergeRes res rfi) (fun g hg => h g (List.mem_cons_of_mem _ hg))

lemma mergeRes_nil {φ σ δ : Type} (ra : List (ConfigRes φ σ δ)) :
    mergeRes ([] : List (ConfigRes φ σ δ)) ra = ra := by
  rw [mergeRes]
  simp

theorem C8_worker_failure_amended {φ σ δ E : Type}
    (fs1 fs2 : List (Except E (List (ConfigRes φ σ δ)))) (e : E)
    (res : List (ConfigRes φ σ δ))
    (h : ∀ f ∈ fs1, isOkE f = true) :
    collectGo (fs1 ++ Except.error e :: fs2) res = Except.error e ∧
    ∀ ra rb : List (ConfigRes φ σ δ),
      collect_results ([Except.ok ra, Except.ok rb] :
          List (Except E (List (ConfigRes φ σ δ)))) =
        Except.ok (mergeRes ra rb) := by
  refine ⟨collectGo_error_propagates fs2 e fs1 res h, ?_⟩
  intro ra rb
  show collectGo _ _ = _
  simp only [collectGo]
  rw [mergeRes_nil]

/-- Claim C8 amended witness: one successful worker before the failing
one; collection aborts with the error, and a two-worker failure-free run
merges by concatenation. -/
theorem C8_worker_failure_amended_witness :
    (∀ f ∈ ([Except.ok [ConfigRes.mk [1] [10] [100]]] :
        List (Except Unit (List (ConfigRes ℕ ℕ ℕ)))), isOkE f = true) ∧
    (collectGo
        (([Except.ok [ConfigRes.mk [1] [10] [100]]] :
            List (Except Unit (List (ConfigRes ℕ ℕ ℕ)))) ++
          Except.error () :: [Except.ok [ConfigRes.mk [2] [20] [200]]])
        ([] : List (ConfigRes ℕ ℕ ℕ)) = Except.error () ∧
      ∀ ra rb : List (ConfigRes ℕ ℕ ℕ),
        collect_results ([Except.ok ra, Except.ok rb] :
            List (Except Unit (List (ConfigRes ℕ ℕ ℕ)))) =
          Except.ok (mergeRes ra rb)) :=
  ⟨by decide,
    C8_worker_failure_amended
      ([Except.ok [ConfigRes.mk [1] [10] [100]]] :
        List (Except Unit (List (ConfigRes ℕ ℕ ℕ))))
      [Except.ok [ConfigRes.mk [2] [20] [200]]] () [] (by decide)⟩

/-- Claim C9: every successful call of the `analyse_dataset` tail returns
the 5-tuple `(score, decoding curve, Fy, classifier, result dict)` (the
return type of `analyse_tail`), the fifth component's `'estimator'` entry
is the very score tensor returned as the third component (with and without
`test_idx`); when `test_idx` is supplied, the dict's `'rawestimator'`
entry covers all `n` trials while the third component covers only the
`n - |test_idx|` training trials. -/
theorem C9_return_tuple_contract {α τ δ : Type} (n : ℕ) (tidx : List ℕ)
    (res : CvRes α) (X : List τ) (predictT : τ → α) (dX : τ) (z : α)
    (audc : List α → ℚ) (dcf : List α → δ)
    (hest : res.estimator.length = n - tidx.length) :
    (analyse_tail n (some tidx) res X predictT dX z audc dcf).2.2.2.2.estimator =
      (analyse_tail n (some tidx) res X predictT dX z audc dcf).2.2.1 ∧
    (analyse_tail n (some tidx) res X predictT dX z audc dcf).2.2.1.length =
      n - tidx.length ∧
    ((analyse_tail n (some tidx) res X predictT dX z audc dcf).2.2.2.2.rawestimator.getD
      []).length = n ∧
    (analyse_tail n none res X predictT dX z audc dcf).2.2.2.2.estimator =
      (analyse_tail n none res X predictT dX z audc dcf).2.2.1 := by
  refine ⟨rfl, hest, ?_, rfl⟩
  show (rawScoresForScoring n (some tidx) res X predictT dX z).length = n
  show (spliceGo z (testMask n tidx) _ _).length = n
  rw [spliceGo_length, testMask_length]

/-- Claim C9 witness: 4 trials, `test_idx = [1, 3]`, estimator of length
2 covering the two train trials. -/
theorem C9_return_tuple_contract_witness :
    ((CvRes.mk [7, 8] none : CvRes ℤ)).estimator.length = 4 - ([1, 3] : List ℕ).length ∧
    ((analyse_tail 4 (some [1, 3]) (CvRes.mk [7, 8] none : CvRes ℤ)
        ([10, 11, 12, 13] : List ℤ) (fun x => x + 100) 0 0 (fun _ => 0)
        (fun _ => ([] : List ℚ))).2.2.2.2.estimator =
      (analyse_tail 4 (some [1, 3]) (CvRes.mk [7, 8] none : CvRes ℤ)
        ([10, 11, 12, 13] : List ℤ) (fun x => x + 100) 0 0 (fun _ => 0)
        (fun _ => ([] : List ℚ))).2.2.1 ∧
    (analyse_tail 4 (some [1, 3]) (CvRes.mk [7, 8] none : CvRes ℤ)
        ([10, 11, 12, 13] : List ℤ) (fun x => x + 100) 0 0 (fun _ => 0)
        (fun _ => ([] : List ℚ))).2.2.1.length = 4 - ([1, 3] : List ℕ).length ∧
    ((analyse_tail 4 (some [1, 3]) (CvRes.mk [7, 8] none : CvRes ℤ)
        ([10, 11, 12, 13] : List ℤ) (fun x => x + 100) 0 0 (fun _ => 0)
        (fun _ => ([] : List ℚ))).2.2.2.2.rawestimator.getD []).length = 4 ∧
    (analyse_tail 4 none (CvRes.mk [7, 8] none : CvRes ℤ)
        ([10, 11, 12, 13] : List ℤ) (fun x => x + 100) 0 0 (fun _ => 0)
        (fun _ => ([] : List ℚ))).2.2.2.2.estimator =
      (analyse_tail 4 none (CvRes.mk [7, 8] none : CvRes ℤ)
        ([10, 11, 12, 13] : List ℤ) (fun x => x + 100) 0 0 (fun _ => 0)
        (fun _ => ([] : List ℚ))).2.2.1) :=
  ⟨by decide,
    C9_return_tuple_contract 4 [1, 3] (CvRes.mk [7, 8] none : CvRes ℤ)
      ([10, 11, 12, 13] : List ℤ) (fun x => x + 100) 0 0 (fun _ => 0)
      (fun _ => ([] : List ℚ)) (by decide)⟩

lemma dataForConfigsGo_base {V D : Type} [DecidableEq V]
    (loader : List (String × V) → D) (loader_args : List (String × V)) :
    ∀ (cfgs : List (List (String × V))) (prev : Option D),
      (∀ dp, prev = some dp → dp = loader loader_args) →
      dataForConfigsGo loader loader_args cfgs prev =
        List.replicate cfgs.length (loader loader_args) := by
  intro cfgs
  induction cfgs with
  | nil => intro prev _; rfl
  | cons cfg cfgs ih =>
    intro prev hprev
    cases prev with
    | none =>
      show loader loader_args ::
          dataForConfigsGo loader loader_args cfgs (some (loader loader_args)) = _
      rw [List.length_cons, List.replicate_succ]
      exact congrArg _ (ih (some (loader loader_args))
        (fun dp h => by injection h with h2; exact h2.symm))
    | some dp =>
      have hdp : dp = loader loader_args := hprev dp rfl
      subst hdp
      show (if loader_args_override loader_args cfg = loader_args then
            loader loader_args else loader loader_args) ::
          dataForConfigsGo loader loader_args cfgs
            (some (if loader_args_override loader_args cfg = loader_args then
              loader loader_args else loader loader_args)) = _
      rw [ite_self, List.length_cons, List.replicate_succ]
      exact congrArg _ (ih (some (loader loader_args))
        (fun dp h => by injection h with h2; exact h2.symm))

/-- Claim C10: in `dataset_GridSearchCV` the dataset is always (re)loaded
with the function's base `loader_args` rather than the
configuration-overridden loader arguments, so the data handed to the
analysis is `loader(filename, **loader_args)` for *every* grid
configuration; in particular any two grid configurations — a fortiori two
differing only in parameters prefixed `loader_args` — receive identical
loaded data. -/
theorem C10_loader_args_ignored {V D : Type} [DecidableEq V]
    (loader : List (String × V) → D) (loader_args : List (String × V))
    (cfgs : List (List (String × V))) :
    dataForConfigs loader loader_args cfgs =
      List.replicate cfgs.length (loader loader_args) ∧
    ∀ i j : ℕ, (dataForConfigs loader loader_args cfgs).getD i (loader loader_args) =
      (dataForConfigs loader loader_args cfgs).getD j (loader loader_args) := by
  have hmain : dataForConfigs loader loader_args cfgs =
      List.replicate cfgs.length (loader loader_args) :=
    dataForConfigsGo_base loader loader_args cfgs none (fun dp h => by cases h)
  refine ⟨hmain, ?_⟩
  intro i j
  rw [hmain, getD_replicate, getD_replicate]

end AnalyseDatasets
